import Mathlib

/-!
# Verification of the PBR renderer's backend-agnostic core

Shallow embedding of the C++ sources under `src/` (four rendering backends:
`vulkan.cpp`, `d3d11.cpp`, `d3d12.cpp`, `opengl.cpp`, shared helpers in
`common/utils.hpp`), together with theorems settling the specification
claims about the embedded code.

Machine integers are modelled as `Nat` with explicit `% 2^w` where unsigned
wraparound matters; `float` roughness values are modelled exactly over `ℚ`;
fatal failures (`throw`, failed `assert`) are modelled as error results.
-/

namespace Utility

/-- `Utility::numMipmapLevels` loop body from `src/common/utils.hpp`:
starting at `levels = 1`, increment `levels` while `(width|height) >> levels`
is nonzero.  The C++ `while` loop is modelled with an explicit fuel argument
so that the definition is structurally recursive; `numMipmapLevels` passes
fuel `v` which is never exhausted, because the loop test already fails once
`levels` reaches `Nat.log2 v + 1 ≤ v` (see `numMipmapLevelsLoop_eq`). -/
def numMipmapLevelsLoop (v : Nat) : Nat → Nat → Nat
  | 0, levels => levels
  | fuel + 1, levels =>
    if v >>> levels ≠ 0 then numMipmapLevelsLoop v fuel (levels + 1) else levels

/-- `Utility::numMipmapLevels(width, height)` from `src/common/utils.hpp`. -/
def numMipmapLevels (width height : Nat) : Nat :=
  numMipmapLevelsLoop (width ||| height) (width ||| height) 1

/-- `Utility::roundToPowerOfTwo(value, POT)` from `src/common/utils.hpp`:
`(value + POT - 1) & -POT` evaluated in `w`-bit unsigned arithmetic
(`w = 32` for the D3D12 `UINT` instantiation, `w = 64` for the Vulkan
`VkDeviceSize` instantiation).  `-POT` in `w`-bit two's complement is
`(2^w - POT) % 2^w`.  All call sites pass `POT ≥ 1`, for which the `Nat`
truncated subtraction in `value + POT - 1` agrees with the C++ unsigned
computation. -/
def roundToPowerOfTwo (w value POT : Nat) : Nat :=
  ((value + POT - 1) % 2 ^ w) &&& ((2 ^ w - POT) % 2 ^ w)

theorem numMipmapLevelsLoop_stopped (v fuel levels : Nat) (h : v >>> levels = 0) :
    numMipmapLevelsLoop v fuel levels = levels := by
  cases fuel with
  | zero => rfl
  | succ fuel => simp [numMipmapLevelsLoop, h]

theorem shiftRight_ne_zero_iff {v l : Nat} : v >>> l ≠ 0 ↔ 2 ^ l ≤ v := by
  rw [Nat.shiftRight_eq_div_pow]
  constructor
  · intro h
    by_contra hlt
    exact h (Nat.div_eq_of_lt (Nat.lt_of_not_le hlt))
  · intro h h0
    have := Nat.div_le_div_right (c := 2 ^ l) h
    rw [Nat.div_self (Nat.pos_pow_of_pos l (by decide))] at this
    omega

theorem le_or_left (a b : Nat) : a ≤ a ||| b := by
  have habs : (a ||| b) &&& a = a := by
    apply Nat.eq_of_testBit_eq
    intro i
    rw [Nat.testBit_and, Nat.testBit_or]
    cases a.testBit i <;> cases b.testBit i <;> rfl
  calc a = (a ||| b) &&& a := habs.symm
  _ ≤ a ||| b := Nat.and_le_left

theorem le_or_right (a b : Nat) : b ≤ a ||| b := by
  rw [Nat.lor_comm]
  exact le_or_left b a

theorem numMipmapLevelsLoop_eq (v : Nat) (hv : 0 < v) :
    ∀ fuel levels, 0 < levels → levels ≤ Nat.log2 v + 1 →
      Nat.log2 v + 1 - levels ≤ fuel →
      numMipmapLevelsLoop v fuel levels = Nat.log2 v + 1 := by
  intro fuel
  induction fuel with
  | zero =>
    intro levels _ hle hfuel
    have hlev : levels = Nat.log2 v + 1 := by omega
    rw [← hlev]
    apply numMipmapLevelsLoop_stopped
    by_contra h
    have h2 : 2 ^ levels ≤ v := shiftRight_ne_zero_iff.mp h
    have := (Nat.le_log2 (Nat.pos_iff_ne_zero.mp hv)).mpr h2
    omega
  | succ fuel ih =>
    intro levels hpos hle hfuel
    by_cases h : v >>> levels = 0
    · have h2 : v < 2 ^ levels := by
        by_contra hge
        exact (shiftRight_ne_zero_iff.mpr (Nat.le_of_not_lt hge)) h
      have hlog : Nat.log2 v < levels := (Nat.log2_lt (Nat.pos_iff_ne_zero.mp hv)).mpr h2
      have hlev : levels = Nat.log2 v + 1 := by omega
      rw [← hlev]
      exact numMipmapLevelsLoop_stopped v _ levels h
    · have h2 : 2 ^ levels ≤ v := shiftRight_ne_zero_iff.mp h
      have hlog : levels ≤ Nat.log2 v := (Nat.le_log2 (Nat.pos_iff_ne_zero.mp hv)).mpr h2
      rw [numMipmapLevelsLoop, if_pos h]
      exact ih (levels + 1) (by omega) (by omega) (by omega)

theorem log2_or_eq_log2_max (w h : Nat) (hw : 0 < w) (_hh : 0 < h) :
    Nat.log2 (w ||| h) = Nat.log2 (max w h) := by
  have hmaxpos : 0 < max w h := lt_max_of_lt_left hw
  have horpos : 0 < w ||| h := lt_of_lt_of_le hw (le_or_left w h)
  have hub : w ||| h < 2 ^ (Nat.log2 (max w h) + 1) := by
    have hmax : max w h < 2 ^ (Nat.log2 (max w h) + 1) :=
      (Nat.log2_lt (Nat.pos_iff_ne_zero.mp hmaxpos)).mp (Nat.lt_succ_self _)
    exact Nat.or_lt_two_pow (lt_of_le_of_lt (le_max_left w h) hmax)
      (lt_of_le_of_lt (le_max_right w h) hmax)
  have hlb : 2 ^ Nat.log2 (max w h) ≤ w ||| h := by
    have h1 : 2 ^ Nat.log2 (max w h) ≤ max w h :=
      (Nat.le_log2 (Nat.pos_iff_ne_zero.mp hmaxpos)).mp (Nat.le_refl _)
    have h2 : max w h ≤ w ||| h := by
      rcases max_cases w h with ⟨hm, _⟩ | ⟨hm, _⟩
      · rw [hm]; exact le_or_left w h
      · rw [hm]; exact le_or_right w h
    omega
  have hA : Nat.log2 (max w h) ≤ Nat.log2 (w ||| h) :=
    (Nat.le_log2 (Nat.pos_iff_ne_zero.mp horpos)).mpr hlb
  have hB : Nat.log2 (w ||| h) < Nat.log2 (max w h) + 1 :=
    (Nat.log2_lt (Nat.pos_iff_ne_zero.mp horpos)).mpr hub
  omega

/-- `Utility::numMipmapLevels` computes `⌊log₂(max(width, height))⌋ + 1` for
all positive inputs. -/
theorem numMipmapLevels_eq (w h : Nat) (hw : 0 < w) (hh : 0 < h) :
    numMipmapLevels w h = Nat.log2 (max w h) + 1 := by
  have hpos : 0 < w ||| h := lt_of_lt_of_le hw (le_or_left w h)
  have hfuel : Nat.log2 (w ||| h) + 1 - 1 ≤ w ||| h :=
    le_trans (by omega) (le_trans (Nat.log2_le_self _) (le_refl _))
  rw [numMipmapLevels,
    numMipmapLevelsLoop_eq (w ||| h) hpos (w ||| h) 1 (by omega) (by omega) hfuel,
    log2_or_eq_log2_max w h hw hh]

theorem two_pow_sub_two_pow (w k : Nat) (hk : k ≤ w) :
    2 ^ w - 2 ^ k = 2 ^ k * (2 ^ (w - k) - 1) := by
  have hsplit : 2 ^ k * 2 ^ (w - k) = 2 ^ w := by
    rw [← pow_add]
    congr 1
    omega
  have h1 : 1 ≤ 2 ^ (w - k) := Nat.one_le_two_pow
  have : 2 ^ k * (2 ^ (w - k) - 1) + 2 ^ k = 2 ^ k * 2 ^ (w - k) := by
    calc 2 ^ k * (2 ^ (w - k) - 1) + 2 ^ k = 2 ^ k * (2 ^ (w - k) - 1 + 1) := by ring
    _ = 2 ^ k * 2 ^ (w - k) := by rw [Nat.sub_add_cancel h1]
  omega

/-- The low `k` bits of the two's complement mask `-2^k` (in `w` bits) are
zero, hence any value AND-ed with it is divisible by `2^k`. -/
theorem dvd_and_neg_mask (x w k : Nat) (hk : k ≤ w) :
    2 ^ k ∣ x &&& ((2 ^ w - 2 ^ k) % 2 ^ w) := by
  have hlt : 2 ^ w - 2 ^ k < 2 ^ w := by
    have h1 : 0 < 2 ^ k := Nat.pos_pow_of_pos k (by decide)
    have h2 : 0 < 2 ^ w := Nat.pos_pow_of_pos w (by decide)
    omega
  rw [Nat.mod_eq_of_lt hlt]
  have h2k : 0 < 2 ^ k := Nat.pos_pow_of_pos k (by decide)
  have hdvdmask : 2 ^ k ∣ 2 ^ w - 2 ^ k := by
    rw [two_pow_sub_two_pow w k hk]
    exact Dvd.intro _ rfl
  have hmaskmod : (2 ^ w - 2 ^ k) % 2 ^ k = 0 := Nat.mod_eq_zero_of_dvd hdvdmask
  rw [Nat.dvd_iff_mod_eq_zero, ← Nat.and_pow_two_sub_one_eq_mod,
    Nat.and_assoc, Nat.and_pow_two_sub_one_eq_mod, hmaskmod, Nat.and_zero]

end Utility

/-! ## Specular prefilter cascade

All four backends run the same two-phase sequence when building the
specular environment map (`setup()` in each backend source): first a plain
image copy of mip level 0 from the unfiltered cubemap into the destination,
then a loop of compute dispatches over the remaining mip levels.  The loop
body is identical across backends (roughness `level * deltaRoughness`,
workgroup grid `max(1, size/32) × max(1, size/32) × 6`, then `size /= 2`);
the backends differ in loop bound (`level < levels` in Vulkan/D3D11/D3D12,
`level <= levels` in OpenGL) and in the initial `size` expression.
`float` roughness arithmetic is modelled exactly over `ℚ`. -/

structure Dispatch where
  level : Nat
  roughness : ℚ
  numGroupsX : Nat
  numGroupsY : Nat
  numGroupsZ : Nat
deriving DecidableEq, Repr

/-- One recorded operation of the specular prefilter stage: the verbatim
copy of mip 0 (`vkCmdCopyImage` / `CopyTextureRegion` /
`CopySubresourceRegion` / `glCopyImageSubData`), or a filter dispatch
writing one destination mip level. -/
inductive SpmapAction where
  | copyMip0 : SpmapAction
  | filter : Dispatch → SpmapAction
deriving DecidableEq

/-- Destination mip level written by an action: the copy writes mip 0, a
filter dispatch writes the mip level bound as its output image. -/
def SpmapAction.writesMip0 : SpmapAction → Bool
  | .copyMip0 => true
  | .filter d => d.level == 0

/-- The prefilter loop of Vulkan (`vulkan.cpp:892`), D3D11 (`d3d11.cpp:250`)
and D3D12 (`d3d12.cpp:429`):
`for(level=1, size=<init>; level<levels; ++level, size/=2)`, dispatching
`max(1, size/32)` groups per axis over 6 layers with roughness
`level * delta`.  The loop is modelled with a fuel argument (structural
recursion); fuel `levels` bounds the iteration count, so it is never
exhausted. -/
def specularPrefilterDispatches (levels : Nat) (delta : ℚ) :
    Nat → Nat → Nat → List Dispatch
  | 0, _, _ => []
  | fuel + 1, level, size =>
    if level < levels then
      { level := level, roughness := level * delta,
        numGroupsX := max 1 (size / 32), numGroupsY := max 1 (size / 32),
        numGroupsZ := 6 }
        :: specularPrefilterDispatches levels delta fuel (level + 1) (size / 2)
    else []

/-- The OpenGL prefilter loop (`opengl.cpp:198`), whose bound is
`level <= m_envTexture.levels` (inclusive, unlike the other backends). -/
def specularPrefilterDispatchesLe (levels : Nat) (delta : ℚ) :
    Nat → Nat → Nat → List Dispatch
  | 0, _, _ => []
  | fuel + 1, level, size =>
    if level ≤ levels then
      { level := level, roughness := level * delta,
        numGroupsX := max 1 (size / 32), numGroupsY := max 1 (size / 32),
        numGroupsZ := 6 }
        :: specularPrefilterDispatchesLe levels delta fuel (level + 1) (size / 2)
    else []

namespace Vulkan

/-- The two image formats of `Vulkan::Renderer::setup` relevant to the
claims (`vulkan.cpp:642-646`). -/
inductive VkFormat where
  | R16G16B16A16_SFLOAT
  | R16G16_SFLOAT
deriving DecidableEq

/-- Channel count of a `VkFormat`. -/
def VkFormat.channels : VkFormat → Nat
  | .R16G16B16A16_SFLOAT => 4
  | .R16G16_SFLOAT => 2

structure Texture where
  width : Nat
  height : Nat
  layers : Nat
  levels : Nat
  format : VkFormat
deriving DecidableEq

/-- `Vulkan::Renderer::createTexture` (`vulkan.cpp:1257`), dimension and
mip-level bookkeeping: `levels = (levels > 0) ? levels :
Utility::numMipmapLevels(width, height)`. -/
def Renderer.createTexture (width height layers : Nat) (format : VkFormat)
    (levels : Nat) : Texture :=
  { width := width, height := height, layers := layers,
    levels := if levels > 0 then levels else Utility.numMipmapLevels width height,
    format := format }

/-- `vulkan.cpp:349-352`. -/
def kEnvMapSize : Nat := 1024

def kIrradianceMapSize : Nat := 32

def kBRDF_LUT_Size : Nat := 256

def kEnvMapLevels : Nat := Utility.numMipmapLevels kEnvMapSize kEnvMapSize

/-- `vulkan.cpp:836`. -/
def numMipTailLevels : Nat := kEnvMapLevels - 1

/-- `m_envTexture = createTexture(kEnvMapSize, kEnvMapSize, 6,
VK_FORMAT_R16G16B16A16_SFLOAT, 0, ...)` (`vulkan.cpp:642`). -/
def m_envTexture : Texture :=
  Renderer.createTexture kEnvMapSize kEnvMapSize 6 .R16G16B16A16_SFLOAT 0

/-- `m_irmapTexture = createTexture(kIrradianceMapSize, kIrradianceMapSize,
6, VK_FORMAT_R16G16B16A16_SFLOAT, 1, ...)` (`vulkan.cpp:644`). -/
def m_irmapTexture : Texture :=
  Renderer.createTexture kIrradianceMapSize kIrradianceMapSize 6 .R16G16B16A16_SFLOAT 1

/-- `m_spBRDF_LUT = createTexture(kBRDF_LUT_Size, kBRDF_LUT_Size, 1,
VK_FORMAT_R16G16_SFLOAT, 1, ...)` (`vulkan.cpp:646`). -/
def m_spBRDF_LUT : Texture :=
  Renderer.createTexture kBRDF_LUT_Size kBRDF_LUT_Size 1 .R16G16_SFLOAT 1

/-- `deltaRoughness = 1.0f / std::max(float(numMipTailLevels), 1.0f)`
(`vulkan.cpp:891`). -/
def deltaRoughness : ℚ := 1 / max (numMipTailLevels : ℚ) 1

/-- The dispatches of the Vulkan prefilter loop (`vulkan.cpp:892-898`):
`for(level=1, size=kEnvMapSize/2; level<kEnvMapLevels; ++level, size/=2)`. -/
def spmapDispatches : List Dispatch :=
  specularPrefilterDispatches kEnvMapLevels deltaRoughness kEnvMapLevels 1 (kEnvMapSize / 2)

/-- The recorded specular prefilter stage (`vulkan.cpp:860-898`): copy of
mip 0, then the filter dispatches. -/
def spmapTrace : List SpmapAction :=
  .copyMip0 :: spmapDispatches.map .filter

end Vulkan

namespace D3D11

structure Texture where
  width : Nat
  height : Nat
  levels : Nat
deriving DecidableEq

/-- `D3D11::Renderer::createTextureCube` (`d3d11.cpp:491`):
`levels = (levels > 0) ? levels : Utility::numMipmapLevels(width, height)`. -/
def Renderer.createTextureCube (width height levels : Nat) : Texture :=
  { width := width, height := height,
    levels := if levels > 0 then levels else Utility.numMipmapLevels width height }

/-- `m_envTexture = createTextureCube(1024, 1024, ...)` (`d3d11.cpp:236`,
`levels` defaulted to 0). -/
def m_envTexture : Texture := Renderer.createTextureCube 1024 1024 0

/-- `deltaRoughness = 1.0f / glm::max(float(m_envTexture.levels-1), 1.0f)`
(`d3d11.cpp:249`). -/
def deltaRoughness : ℚ := 1 / max ((m_envTexture.levels - 1 : Nat) : ℚ) 1

/-- `for(UINT level=1, size=512; level<m_envTexture.levels; ++level, size/=2)`
(`d3d11.cpp:250-260`). -/
def spmapDispatches : List Dispatch :=
  specularPrefilterDispatches m_envTexture.levels deltaRoughness m_envTexture.levels 1 512

def spmapTrace : List SpmapAction :=
  .copyMip0 :: spmapDispatches.map .filter

end D3D11

namespace D3D12

structure Texture where
  width : Nat
  height : Nat
  depth : Nat
  levels : Nat
deriving DecidableEq

/-- `D3D12::Renderer::createTexture` (`d3d12.cpp:855-859`):
`levels = (levels > 0) ? levels : Utility::numMipmapLevels(width, height)`. -/
def Renderer.createTexture (width height depth levels : Nat) : Texture :=
  { width := width, height := height, depth := depth,
    levels := if levels > 0 then levels else Utility.numMipmapLevels width height }

/-- `m_envTexture = createTexture(1024, 1024, 6, DXGI_FORMAT_R16G16B16A16_FLOAT)`
(`d3d12.cpp:355`, `levels` defaulted to 0). -/
def m_envTexture : Texture := Renderer.createTexture 1024 1024 6 0

/-- `deltaRoughness = 1.0f / glm::max(float(m_envTexture.levels-1), 1.0f)`
(`d3d12.cpp:428`). -/
def deltaRoughness : ℚ := 1 / max ((m_envTexture.levels - 1 : Nat) : ℚ) 1

/-- `for(UINT level=1, size=512; level<m_envTexture.levels; ++level, size/=2)`
(`d3d12.cpp:429-438`). -/
def spmapDispatches : List Dispatch :=
  specularPrefilterDispatches m_envTexture.levels deltaRoughness m_envTexture.levels 1 512

def spmapTrace : List SpmapAction :=
  .copyMip0 :: spmapDispatches.map .filter

end D3D12

namespace OpenGL

structure Texture where
  width : Nat
  height : Nat
  levels : Nat
deriving DecidableEq

/-- `OpenGL::Renderer::createTexture` (`opengl.cpp:373-378`):
`levels = (levels > 0) ? levels : Utility::numMipmapLevels(width, height)`. -/
def Renderer.createTexture (width height levels : Nat) : Texture :=
  { width := width, height := height,
    levels := if levels > 0 then levels else Utility.numMipmapLevels width height }

/-- `opengl.cpp:119`. -/
def kEnvMapSize : Nat := 1024

/-- `m_envTexture = createTexture(GL_TEXTURE_CUBE_MAP, kEnvMapSize,
kEnvMapSize, GL_RGBA16F)` (`opengl.cpp:186`, `levels` defaulted to 0). -/
def m_envTexture : Texture := Renderer.createTexture kEnvMapSize kEnvMapSize 0

/-- `deltaRoughness = 1.0f / glm::max(float(m_envTexture.levels-1), 1.0f)`
(`opengl.cpp:197`). -/
def deltaRoughness : ℚ := 1 / max ((m_envTexture.levels - 1 : Nat) : ℚ) 1

/-- `for(int level=1, size=kEnvMapSize/2; level<=m_envTexture.levels;
++level, size/=2)` (`opengl.cpp:198-203`) — note the inclusive bound,
unlike the other three backends. -/
def spmapDispatches : List Dispatch :=
  specularPrefilterDispatchesLe m_envTexture.levels deltaRoughness
    (m_envTexture.levels + 1) 1 (kEnvMapSize / 2)

def spmapTrace : List SpmapAction :=
  .copyMip0 :: spmapDispatches.map .filter

end OpenGL

/-- Closed form of the exclusive-bound prefilter loop: starting at `level`
with `size`, it emits one dispatch per destination level
`i ∈ [level, levels)`, with `size` halved at each step. -/
theorem specularPrefilterDispatches_eq (levels : Nat) (delta : ℚ) :
    ∀ fuel level size, levels - level ≤ fuel →
    specularPrefilterDispatches levels delta fuel level size =
      (List.range' level (levels - level)).map (fun i =>
        { level := i, roughness := (i : ℚ) * delta,
          numGroupsX := max 1 (size / 2 ^ (i - level) / 32),
          numGroupsY := max 1 (size / 2 ^ (i - level) / 32),
          numGroupsZ := 6 }) := by
  intro fuel
  induction fuel with
  | zero =>
    intro level size hf
    have h0 : levels - level = 0 := by omega
    simp [specularPrefilterDispatches, h0]
  | succ fuel ih =>
    intro level size hf
    by_cases h : level < levels
    · rw [specularPrefilterDispatches, if_pos h, ih (level + 1) (size / 2) (by omega)]
      have hn : levels - level = (levels - (level + 1)) + 1 := by omega
      rw [hn, List.range'_succ, List.map_cons]
      congr 1
      · simp
      · apply List.map_congr_left
        intro i hi
        have hip : level + 1 ≤ i := (List.mem_range'_1.mp hi).1
        have hsz : size / 2 / 2 ^ (i - (level + 1)) = size / 2 ^ (i - level) := by
          rw [Nat.div_div_eq_div_mul]
          congr 1
          calc 2 * 2 ^ (i - (level + 1)) = 2 ^ (i - (level + 1) + 1) := (pow_succ' 2 _).symm
          _ = 2 ^ (i - level) := by congr 1; omega
        simp [hsz]
    · rw [specularPrefilterDispatches, if_neg h]
      have h0 : levels - level = 0 := by omega
      simp [h0]

/-- Closed form of the OpenGL inclusive-bound prefilter loop: it emits one
dispatch per `i ∈ [level, levels]`. -/
theorem specularPrefilterDispatchesLe_eq (levels : Nat) (delta : ℚ) :
    ∀ fuel level size, levels + 1 - level ≤ fuel →
    specularPrefilterDispatchesLe levels delta fuel level size =
      (List.range' level (levels + 1 - level)).map (fun i =>
        { level := i, roughness := (i : ℚ) * delta,
          numGroupsX := max 1 (size / 2 ^ (i - level) / 32),
          numGroupsY := max 1 (size / 2 ^ (i - level) / 32),
          numGroupsZ := 6 }) := by
  intro fuel
  induction fuel with
  | zero =>
    intro level size hf
    have h0 : levels + 1 - level = 0 := by omega
    simp [specularPrefilterDispatchesLe, h0]
  | succ fuel ih =>
    intro level size hf
    by_cases h : level ≤ levels
    · rw [specularPrefilterDispatchesLe, if_pos h, ih (level + 1) (size / 2) (by omega)]
      have hn : levels + 1 - level = (levels + 1 - (level + 1)) + 1 := by omega
      rw [hn, List.range'_succ, List.map_cons]
      congr 1
      · simp
      · apply List.map_congr_left
        intro i hi
        have hip : level + 1 ≤ i := (List.mem_range'_1.mp hi).1
        have hsz : size / 2 / 2 ^ (i - (level + 1)) = size / 2 ^ (i - level) := by
          rw [Nat.div_div_eq_div_mul]
          congr 1
          calc 2 * 2 ^ (i - (level + 1)) = 2 ^ (i - (level + 1) + 1) := (pow_succ' 2 _).symm
          _ = 2 ^ (i - level) := by congr 1; omega
        simp [hsz]
    · rw [specularPrefilterDispatchesLe, if_neg h]
      have h0 : levels + 1 - level = 0 := by omega
      simp [h0]

theorem Vulkan.kEnvMapLevels_eq : Vulkan.kEnvMapLevels = 11 := rfl

theorem d3d11_envTexture_levels_eq : D3D11.m_envTexture.levels = 11 := rfl

theorem d3d12_envTexture_levels_eq : D3D12.m_envTexture.levels = 11 := rfl

theorem opengl_envTexture_levels_eq : OpenGL.m_envTexture.levels = 11 := rfl

theorem Vulkan.deltaRoughness_eq : Vulkan.deltaRoughness = 1 / 10 := by
  have h : Vulkan.numMipTailLevels = 10 := rfl
  rw [Vulkan.deltaRoughness, h]
  norm_num

theorem vulkan_spmapDispatches_eq :
    Vulkan.spmapDispatches = (List.range' 1 10).map (fun i =>
      { level := i, roughness := (i : ℚ) * Vulkan.deltaRoughness,
        numGroupsX := max 1 (512 / 2 ^ (i - 1) / 32),
        numGroupsY := max 1 (512 / 2 ^ (i - 1) / 32),
        numGroupsZ := 6 }) :=
  specularPrefilterDispatches_eq 11 Vulkan.deltaRoughness 11 1 512 (by omega)

theorem d3d11_spmapDispatches_eq_vulkan :
    D3D11.spmapDispatches = Vulkan.spmapDispatches := rfl

theorem d3d12_spmapDispatches_eq_vulkan :
    D3D12.spmapDispatches = Vulkan.spmapDispatches := rfl

theorem opengl_spmapDispatches_eq :
    OpenGL.spmapDispatches = (List.range' 1 11).map (fun i =>
      { level := i, roughness := (i : ℚ) * OpenGL.deltaRoughness,
        numGroupsX := max 1 (512 / 2 ^ (i - 1) / 32),
        numGroupsY := max 1 (512 / 2 ^ (i - 1) / 32),
        numGroupsZ := 6 }) :=
  specularPrefilterDispatchesLe_eq 11 OpenGL.deltaRoughness 12 1 512 (by omega)

theorem vulkan_exists_filter_dispatch (L : Nat) (h2 : L < 11) (h1 : 1 ≤ L) :
    ∃ d, SpmapAction.filter d ∈ Vulkan.spmapTrace ∧ d.level = L ∧
      d.roughness = (L : ℚ) / 10 := by
  have hmem : (⟨L, (L : ℚ) * Vulkan.deltaRoughness, max 1 (512 / 2 ^ (L - 1) / 32),
      max 1 (512 / 2 ^ (L - 1) / 32), 6⟩ : Dispatch) ∈ Vulkan.spmapDispatches := by
    rw [vulkan_spmapDispatches_eq]
    exact List.mem_map_of_mem _ (List.mem_range'_1.mpr ⟨h1, by omega⟩)
  exact ⟨_, List.mem_cons_of_mem _ (List.mem_map_of_mem _ hmem), rfl,
    by rw [Vulkan.deltaRoughness_eq, mul_one_div]⟩

theorem vulkan_writesMip0_only_copy (a : SpmapAction)
    (ha : a ∈ Vulkan.spmapTrace) (hw : a.writesMip0 = true) :
    a = SpmapAction.copyMip0 := by
  rw [Vulkan.spmapTrace] at ha
  rcases List.mem_cons.mp ha with h | h
  · exact h
  · exfalso
    obtain ⟨d, hd, rfl⟩ := List.mem_map.mp h
    rw [vulkan_spmapDispatches_eq] at hd
    obtain ⟨i, hi, rfl⟩ := List.mem_map.mp hd
    have h1 : 1 ≤ i := (List.mem_range'_1.mp hi).1
    simp [SpmapAction.writesMip0] at hw
    omega

/-- C1: In the Vulkan, D3D11 and D3D12 backends, each destination mip level
`L ∈ [1, levels-1]` of the specular environment map is produced by a filter
dispatch with roughness `L / (levels - 1)`, mip 0 is written only by the
plain image copy from the unfiltered cubemap, and the copy is the first
recorded action of the stage. -/
theorem spec_c1_specular_mip_roughness :
    (∀ L, L < Vulkan.kEnvMapLevels → 1 ≤ L →
      ∃ d, SpmapAction.filter d ∈ Vulkan.spmapTrace ∧ d.level = L ∧
        d.roughness = (L : ℚ) / ((Vulkan.kEnvMapLevels - 1 : Nat) : ℚ)) ∧
    (∀ L, L < D3D11.m_envTexture.levels → 1 ≤ L →
      ∃ d, SpmapAction.filter d ∈ D3D11.spmapTrace ∧ d.level = L ∧
        d.roughness = (L : ℚ) / ((D3D11.m_envTexture.levels - 1 : Nat) : ℚ)) ∧
    (∀ L, L < D3D12.m_envTexture.levels → 1 ≤ L →
      ∃ d, SpmapAction.filter d ∈ D3D12.spmapTrace ∧ d.level = L ∧
        d.roughness = (L : ℚ) / ((D3D12.m_envTexture.levels - 1 : Nat) : ℚ)) ∧
    (∀ a ∈ Vulkan.spmapTrace, a.writesMip0 = true → a = SpmapAction.copyMip0) ∧
    (∀ a ∈ D3D11.spmapTrace, a.writesMip0 = true → a = SpmapAction.copyMip0) ∧
    (∀ a ∈ D3D12.spmapTrace, a.writesMip0 = true → a = SpmapAction.copyMip0) ∧
    Vulkan.spmapTrace.head? = some SpmapAction.copyMip0 ∧
    D3D11.spmapTrace.head? = some SpmapAction.copyMip0 ∧
    D3D12.spmapTrace.head? = some SpmapAction.copyMip0 := by
  have htr11 : D3D11.spmapTrace = Vulkan.spmapTrace := rfl
  have htr12 : D3D12.spmapTrace = Vulkan.spmapTrace := rfl
  have hq : ((Vulkan.kEnvMapLevels - 1 : Nat) : ℚ) = 10 := by
    rw [Vulkan.kEnvMapLevels_eq]
    norm_num
  have hq11 : ((D3D11.m_envTexture.levels - 1 : Nat) : ℚ) = 10 := by
    rw [d3d11_envTexture_levels_eq]
    norm_num
  have hq12 : ((D3D12.m_envTexture.levels - 1 : Nat) : ℚ) = 10 := by
    rw [d3d12_envTexture_levels_eq]
    norm_num
  refine ⟨?_, ?_, ?_, ?_, ?_, ?_, rfl, rfl, rfl⟩
  · intro L hL h1
    rw [Vulkan.kEnvMapLevels_eq] at hL
    rw [hq]
    exact vulkan_exists_filter_dispatch L hL h1
  · intro L hL h1
    rw [d3d11_envTexture_levels_eq] at hL
    rw [htr11, hq11]
    exact vulkan_exists_filter_dispatch L hL h1
  · intro L hL h1
    rw [d3d12_envTexture_levels_eq] at hL
    rw [htr12, hq12]
    exact vulkan_exists_filter_dispatch L hL h1
  · exact vulkan_writesMip0_only_copy
  · rw [htr11]; exact vulkan_writesMip0_only_copy
  · rw [htr12]; exact vulkan_writesMip0_only_copy

/-- Witness for C1: instantiating the theorem at mip level 3 of the Vulkan
backend yields a dispatch with roughness `3/10`. -/
theorem spec_c1_specular_mip_roughness_witness :
    ∃ d, SpmapAction.filter d ∈ Vulkan.spmapTrace ∧ d.level = 3 ∧
      d.roughness = ((3 : Nat) : ℚ) / ((Vulkan.kEnvMapLevels - 1 : Nat) : ℚ) :=
  spec_c1_specular_mip_roughness.1 3 (by decide) (by decide)

/-- C2 (code evaluation at the deviating backend): in Vulkan, D3D11 and
D3D12 the prefilter loop dispatches exactly for destination levels
`1 .. levels-1` (that is `levels-1` dispatches, none targeting mip 0 or a
level `≥ levels`), each with a `max(1, size/32)²×6` workgroup grid — but
the OpenGL loop (`opengl.cpp:198`, bound `level <= m_envTexture.levels`)
additionally issues a dispatch whose destination level equals `levels`
(mip 11 of an 11-level texture, which does not exist). -/
theorem spec_c2_prefilter_loop_bounds :
    Vulkan.spmapDispatches.map Dispatch.level = List.range' 1 (Vulkan.kEnvMapLevels - 1) ∧
    D3D11.spmapDispatches.map Dispatch.level = List.range' 1 (D3D11.m_envTexture.levels - 1) ∧
    D3D12.spmapDispatches.map Dispatch.level = List.range' 1 (D3D12.m_envTexture.levels - 1) ∧
    Vulkan.spmapDispatches.length = Vulkan.kEnvMapLevels - 1 ∧
    (∀ d ∈ Vulkan.spmapDispatches,
      d.numGroupsX = max 1 (Vulkan.kEnvMapSize / 2 ^ d.level / 32) ∧
      d.numGroupsY = d.numGroupsX ∧ d.numGroupsZ = 6) ∧
    OpenGL.spmapDispatches.map Dispatch.level = List.range' 1 OpenGL.m_envTexture.levels ∧
    (∃ d, d ∈ OpenGL.spmapDispatches ∧ d.level = OpenGL.m_envTexture.levels) := by
  have hmapV : Vulkan.spmapDispatches.map Dispatch.level = List.range' 1 10 := by
    rw [vulkan_spmapDispatches_eq, List.map_map]
    have hfun : (Dispatch.level ∘ fun i =>
        ({ level := i, roughness := (i : ℚ) * Vulkan.deltaRoughness,
           numGroupsX := max 1 (512 / 2 ^ (i - 1) / 32),
           numGroupsY := max 1 (512 / 2 ^ (i - 1) / 32),
           numGroupsZ := 6 } : Dispatch)) = id := rfl
    rw [hfun, List.map_id]
  refine ⟨?_, ?_, ?_, ?_, ?_, ?_, ?_⟩
  · rw [Vulkan.kEnvMapLevels_eq]
    exact hmapV
  · rw [d3d11_envTexture_levels_eq, d3d11_spmapDispatches_eq_vulkan]
    exact hmapV
  · rw [d3d12_envTexture_levels_eq, d3d12_spmapDispatches_eq_vulkan]
    exact hmapV
  · have := congrArg List.length hmapV
    rw [List.length_map, List.length_range'] at this
    rw [Vulkan.kEnvMapLevels_eq, this]
  · intro d hd
    rw [vulkan_spmapDispatches_eq] at hd
    obtain ⟨i, hi, rfl⟩ := List.mem_map.mp hd
    have h1 : 1 ≤ i := (List.mem_range'_1.mp hi).1
    have hsz : Vulkan.kEnvMapSize / 2 ^ i = 512 / 2 ^ (i - 1) := by
      have hp : 2 ^ i = 2 * 2 ^ (i - 1) := by
        calc 2 ^ i = 2 ^ (i - 1 + 1) := by congr 1; omega
        _ = 2 * 2 ^ (i - 1) := pow_succ' 2 _
      show 1024 / 2 ^ i = 512 / 2 ^ (i - 1)
      rw [hp, ← Nat.div_div_eq_div_mul]
    exact ⟨by simp [hsz], rfl, rfl⟩
  · rw [opengl_envTexture_levels_eq, opengl_spmapDispatches_eq, List.map_map]
    have hfun : (Dispatch.level ∘ fun i =>
        ({ level := i, roughness := (i : ℚ) * OpenGL.deltaRoughness,
           numGroupsX := max 1 (512 / 2 ^ (i - 1) / 32),
           numGroupsY := max 1 (512 / 2 ^ (i - 1) / 32),
           numGroupsZ := 6 } : Dispatch)) = id := rfl
    rw [hfun, List.map_id]
  · rw [opengl_spmapDispatches_eq, opengl_envTexture_levels_eq]
    exact ⟨_, List.mem_map_of_mem _ (List.mem_range'_1.mpr ⟨by omega, by omega⟩), rfl⟩

/-- C3: a texture created with level-count argument 0 (auto-derive) gets
`floor(log2(max(width, height))) + 1` mip levels — in every backend that
auto-derives via `Utility::numMipmapLevels` (shown here for the Vulkan and
OpenGL `createTexture`, the two cited call sites; D3D11/D3D12 share the
same expression). -/
theorem spec_c3_auto_mip_levels (w h layers : Nat) (fmt : Vulkan.VkFormat)
    (hw : 0 < w) (hh : 0 < h) :
    (Vulkan.Renderer.createTexture w h layers fmt 0).levels
        = Nat.log2 (max w h) + 1 ∧
    (OpenGL.Renderer.createTexture w h 0).levels = Nat.log2 (max w h) + 1 ∧
    (D3D11.Renderer.createTextureCube w h 0).levels = Nat.log2 (max w h) + 1 ∧
    (D3D12.Renderer.createTexture w h 6 0).levels = Nat.log2 (max w h) + 1 := by
  have hnum := Utility.numMipmapLevels_eq w h hw hh
  exact ⟨by simpa [Vulkan.Renderer.createTexture] using hnum,
    by simpa [OpenGL.Renderer.createTexture] using hnum,
    by simpa [D3D11.Renderer.createTextureCube] using hnum,
    by simpa [D3D12.Renderer.createTexture] using hnum⟩

/-- Witness for C3 at a 1024×1024 texture: 11 derived mip levels. -/
theorem spec_c3_auto_mip_levels_witness :
    0 < 1024 ∧
      (Vulkan.Renderer.createTexture 1024 1024 6 .R16G16B16A16_SFLOAT 0).levels
        = Nat.log2 (max 1024 1024) + 1 :=
  ⟨by decide, (spec_c3_auto_mip_levels 1024 1024 6 .R16G16B16A16_SFLOAT
    (by decide) (by decide)).1⟩

/-- C4: the textures created by `Vulkan::Renderer::setup` — environment
cubemap 1024×1024×6 with 11 mip levels, irradiance cubemap 32×32×6 with
exactly 1 level, BRDF LUT 256×256, single layer, 2-channel format, exactly
1 level. -/
theorem spec_c4_setup_texture_shapes :
    Vulkan.m_envTexture.width = 1024 ∧ Vulkan.m_envTexture.height = 1024 ∧
    Vulkan.m_envTexture.layers = 6 ∧ Vulkan.m_envTexture.levels = 11 ∧
    Vulkan.m_irmapTexture.width = 32 ∧ Vulkan.m_irmapTexture.height = 32 ∧
    Vulkan.m_irmapTexture.layers = 6 ∧ Vulkan.m_irmapTexture.levels = 1 ∧
    Vulkan.m_spBRDF_LUT.width = 256 ∧ Vulkan.m_spBRDF_LUT.height = 256 ∧
    Vulkan.m_spBRDF_LUT.layers = 1 ∧ Vulkan.m_spBRDF_LUT.levels = 1 ∧
    Vulkan.m_spBRDF_LUT.format.channels = 2 := by
  exact ⟨rfl, rfl, rfl, rfl, rfl, rfl, rfl, rfl, rfl, rfl, rfl, rfl, rfl⟩

namespace D3D12

/-! ## Descriptor heap bump allocator (`d3d12.hpp:25-59`)

`DescriptorHeap::alloc()` returns `(*this)[numDescriptorsAllocated++]`;
`operator[]` carries `assert(index < numDescriptorsInHeap)`, modelled as a
fatal failure (`none`).  `DescriptorHeapMark` records
`numDescriptorsAllocated` on construction and writes it back on
destruction. -/

structure DescriptorHeap where
  descriptorSize : Nat
  numDescriptorsInHeap : Nat
  numDescriptorsAllocated : Nat
deriving DecidableEq

/-- The CPU/GPU handle pair produced by `DescriptorHeap::operator[]`; both
handles are the heap start advanced by `index * descriptorSize`, so the
slot index determines the descriptor.  We record the index. -/
def DescriptorHeap.alloc (h : DescriptorHeap) : Option (Nat × DescriptorHeap) :=
  if h.numDescriptorsAllocated < h.numDescriptorsInHeap then
    some (h.numDescriptorsAllocated,
      { h with numDescriptorsAllocated := h.numDescriptorsAllocated + 1 })
  else
    none

/-- `DescriptorHeapMark::DescriptorHeapMark(heap)` saves
`heap.numDescriptorsAllocated`. -/
def DescriptorHeap.mark (h : DescriptorHeap) : Nat :=
  h.numDescriptorsAllocated

/-- `DescriptorHeapMark::~DescriptorHeapMark()`:
`heap.numDescriptorsAllocated = mark`. -/
def DescriptorHeap.restore (h : DescriptorHeap) (mark : Nat) : DescriptorHeap :=
  { h with numDescriptorsAllocated := mark }

/-- A sequence of `n` consecutive `alloc()` calls; fails fatally if any one
of them does. -/
def DescriptorHeap.allocMany (h : DescriptorHeap) : Nat → Option DescriptorHeap
  | 0 => some h
  | n + 1 =>
    match h.alloc with
    | some (_, h') => h'.allocMany n
    | none => none

theorem DescriptorHeap.allocMany_preserves (h : DescriptorHeap) :
    ∀ n h', h.allocMany n = some h' →
      h'.numDescriptorsInHeap = h.numDescriptorsInHeap ∧
      h'.descriptorSize = h.descriptorSize := by
  intro n
  induction n generalizing h with
  | zero =>
    intro h' hh
    simp [allocMany] at hh
    rw [← hh]
    exact ⟨rfl, rfl⟩
  | succ n ih =>
    intro h' hh
    rw [allocMany] at hh
    rcases halloc : h.alloc with _ | ⟨i, h1⟩
    · rw [halloc] at hh
      exact absurd hh (by simp)
    · rw [halloc] at hh
      have := ih h1 h' hh
      rw [alloc] at halloc
      by_cases hc : h.numDescriptorsAllocated < h.numDescriptorsInHeap
      · rw [if_pos hc] at halloc
        obtain ⟨rfl⟩ : h1 = { h with numDescriptorsAllocated := h.numDescriptorsAllocated + 1 } := by
          cases halloc
          rfl
        simpa using this
      · rw [if_neg hc] at halloc
        exact absurd halloc (by simp)

end D3D12

/-- C6: if a `DescriptorHeapMark` is taken at cursor `c`, then any positive
number of `alloc()` calls succeed, then the mark is restored, the next
`alloc()` returns the same slot index as the first `alloc()` after the
mark (namely `c`). -/
theorem spec_c6_mark_restore_rewind (h : D3D12.DescriptorHeap)
    (k : Nat) (i₁ : Nat) (h₁ hₖ : D3D12.DescriptorHeap)
    (hfirst : h.alloc = some (i₁, h₁))
    (hrest : h.allocMany (k + 1) = some hₖ) :
    Option.map Prod.fst ((hₖ.restore h.mark).alloc) = some i₁ := by
  rw [D3D12.DescriptorHeap.alloc] at hfirst
  by_cases hc : h.numDescriptorsAllocated < h.numDescriptorsInHeap
  · rw [if_pos hc] at hfirst
    have hi : i₁ = h.numDescriptorsAllocated := by
      cases hfirst
      rfl
    have hcap := (D3D12.DescriptorHeap.allocMany_preserves h (k + 1) hₖ hrest).1
    rw [D3D12.DescriptorHeap.restore, D3D12.DescriptorHeap.mark,
      D3D12.DescriptorHeap.alloc]
    simp only [hcap]
    rw [if_pos hc, hi]
    rfl
  · rw [if_neg hc] at hfirst
    exact absurd hfirst (by simp)

/-- Witness for C6: a heap with capacity 4 and cursor 1; mark, two allocs
(returning slots 1 and 2), restore, next alloc returns slot 1 again. -/
theorem spec_c6_mark_restore_rewind_witness :
    Option.map Prod.fst
      ((D3D12.DescriptorHeap.restore
          { descriptorSize := 32, numDescriptorsInHeap := 4,
            numDescriptorsAllocated := 3 }
          (D3D12.DescriptorHeap.mark
            { descriptorSize := 32, numDescriptorsInHeap := 4,
              numDescriptorsAllocated := 1 })).alloc) = some 1 :=
  spec_c6_mark_restore_rewind
    { descriptorSize := 32, numDescriptorsInHeap := 4, numDescriptorsAllocated := 1 }
    1 1
    { descriptorSize := 32, numDescriptorsInHeap := 4, numDescriptorsAllocated := 2 }
    { descriptorSize := 32, numDescriptorsInHeap := 4, numDescriptorsAllocated := 3 }
    (by decide) (by decide)

/-- C7: `DescriptorHeap::alloc()` fails fatally (the `assert` in
`operator[]` fires) exactly when the allocated count has reached the heap
capacity; an in-capacity `alloc()` always yields a descriptor at the old
cursor and advances the cursor. -/
theorem spec_c7_alloc_overflow_fatal (h : D3D12.DescriptorHeap) :
    (h.alloc = none ↔ h.numDescriptorsInHeap ≤ h.numDescriptorsAllocated) ∧
    (h.numDescriptorsAllocated < h.numDescriptorsInHeap →
      h.alloc = some (h.numDescriptorsAllocated,
        { h with numDescriptorsAllocated := h.numDescriptorsAllocated + 1 })) := by
  constructor
  · rw [D3D12.DescriptorHeap.alloc]
    by_cases hc : h.numDescriptorsAllocated < h.numDescriptorsInHeap
    · rw [if_pos hc]
      simp
      omega
    · rw [if_neg hc]
      simp
      omega
  · intro hc
    rw [D3D12.DescriptorHeap.alloc, if_pos hc]

/-- Witness for C7: a full heap (capacity 2, 2 allocated) fails fatally;
the same heap with one free slot returns slot 1. -/
theorem spec_c7_alloc_overflow_fatal_witness :
    (D3D12.DescriptorHeap.alloc
        { descriptorSize := 32, numDescriptorsInHeap := 2,
          numDescriptorsAllocated := 2 } = none) ∧
    (D3D12.DescriptorHeap.alloc
        { descriptorSize := 32, numDescriptorsInHeap := 2,
          numDescriptorsAllocated := 1 } = some (1,
      { descriptorSize := 32, numDescriptorsInHeap := 2,
        numDescriptorsAllocated := 2 })) :=
  ⟨(spec_c7_alloc_overflow_fatal _).1.mpr (by decide),
    (spec_c7_alloc_overflow_fatal _).2 (by decide)⟩

/-- The fatal error classes thrown by the sub-allocators
(`std::invalid_argument` at `vulkan.cpp:1476`, `std::overflow_error` at
`vulkan.cpp:1479` and `d3d12.cpp:788`). -/
inductive AllocError where
  | invalidArgument
  | overflowError
deriving DecidableEq

namespace Vulkan

/-- The two `VkPhysicalDeviceLimits` fields read by
`Vulkan::Renderer::allocFromUniformBuffer`. -/
structure VkPhysicalDeviceLimits where
  minUniformBufferOffsetAlignment : Nat
  maxUniformBufferRange : Nat
deriving DecidableEq

/-- `Vulkan::UniformBuffer` (`vulkan.hpp:75-81`), the fields the allocator
reads and writes; `cursor` and `capacity` are `VkDeviceSize` (64-bit). -/
structure UniformBuffer where
  capacity : Nat
  cursor : Nat
deriving DecidableEq

/-- `Vulkan::UniformBufferAllocation` (`vulkan.hpp:83-91`):
`descriptorInfo.offset` and `descriptorInfo.range`; `hostMemoryPtr` is the
mapped base plus the same offset, so `offset` determines it. -/
structure UniformBufferAllocation where
  offset : Nat
  range : Nat
deriving DecidableEq

/-- `Vulkan::Renderer::allocFromUniformBuffer` (`vulkan.cpp:1471-1490`).
Throws (`error`, buffer unchanged) when the aligned size exceeds
`maxUniformBufferRange` or the buffer capacity would be exceeded; otherwise
returns the allocation at the current cursor and advances the cursor by the
aligned size.  Arithmetic on `VkDeviceSize` is mod `2^64`. -/
def Renderer.allocFromUniformBuffer (limits : VkPhysicalDeviceLimits)
    (buffer : UniformBuffer) (size : Nat) :
    Except AllocError UniformBufferAllocation × UniformBuffer :=
  let alignedSize :=
    Utility.roundToPowerOfTwo 64 size limits.minUniformBufferOffsetAlignment
  if alignedSize > limits.maxUniformBufferRange then
    (.error .invalidArgument, buffer)
  else if (buffer.cursor + alignedSize) % 2 ^ 64 > buffer.capacity then
    (.error .overflowError, buffer)
  else
    (.ok { offset := buffer.cursor, range := alignedSize },
      { buffer with cursor := (buffer.cursor + alignedSize) % 2 ^ 64 })

end Vulkan

namespace D3D12

/-- `D3D12::UploadBuffer` (`d3d12.hpp:69-76`), the fields the allocator
reads and writes; `cursor` and `capacity` are `UINT` (32-bit). -/
structure UploadBuffer where
  capacity : Nat
  cursor : Nat
deriving DecidableEq

/-- `D3D12::UploadBufferRegion` (`d3d12.hpp:78-83`): `cpuAddress` and
`gpuAddress` are the buffer base plus the allocation offset, so the offset
determines both. -/
structure UploadBufferRegion where
  offset : Nat
  size : Nat
deriving DecidableEq

/-- `D3D12::Renderer::allocFromUploadBuffer` (`d3d12.cpp:784-797`).
Throws `std::overflow_error` (buffer unchanged) when the capacity would be
exceeded; otherwise returns the region at the current cursor and advances
the cursor by the aligned size.  Arithmetic on `UINT` is mod `2^32`. -/
def Renderer.allocFromUploadBuffer (buffer : UploadBuffer) (size align : Nat) :
    Except AllocError UploadBufferRegion × UploadBuffer :=
  let alignedSize := Utility.roundToPowerOfTwo 32 size align
  if (buffer.cursor + alignedSize) % 2 ^ 32 > buffer.capacity then
    (.error .overflowError, buffer)
  else
    (.ok { offset := buffer.cursor, size := alignedSize },
      { buffer with cursor := (buffer.cursor + alignedSize) % 2 ^ 32 })

/-- A sequence of `allocFromUploadBuffer` calls with a common alignment
(the only alignment used at the call site, `256` at `d3d12.cpp:1213`),
collecting the successfully returned regions. -/
def Renderer.runUploadAllocs (align : Nat) :
    UploadBuffer → List Nat → List UploadBufferRegion × UploadBuffer
  | b, [] => ([], b)
  | b, size :: rest =>
    match Renderer.allocFromUploadBuffer b size align with
    | (.ok r, b') =>
      ((Renderer.runUploadAllocs align b' rest).1.cons r,
        (Renderer.runUploadAllocs align b' rest).2)
    | (.error _, b') => Renderer.runUploadAllocs align b' rest

end D3D12

theorem Utility.roundToPowerOfTwo_le (w value POT : Nat) :
    Utility.roundToPowerOfTwo w value POT ≤ value + POT - 1 :=
  le_trans Nat.and_le_left (Nat.mod_le _ _)


theorem vulkan_allocFromUniformBuffer_spec
    (limits : Vulkan.VkPhysicalDeviceLimits) (vb : Vulkan.UniformBuffer) (vsize : Nat)
    (hv : vb.cursor + Utility.roundToPowerOfTwo 64 vsize
        limits.minUniformBufferOffsetAlignment < 2 ^ 64) :
    ((∃ e, (Vulkan.Renderer.allocFromUniformBuffer limits vb vsize).1 = .error e) ↔
      (limits.maxUniformBufferRange <
          Utility.roundToPowerOfTwo 64 vsize limits.minUniformBufferOffsetAlignment ∨
        vb.capacity < vb.cursor + Utility.roundToPowerOfTwo 64 vsize
          limits.minUniformBufferOffsetAlignment)) ∧
    ((∃ e, (Vulkan.Renderer.allocFromUniformBuffer limits vb vsize).1 = .error e) →
      (Vulkan.Renderer.allocFromUniformBuffer limits vb vsize).2 = vb) ∧
    (∀ a, (Vulkan.Renderer.allocFromUniformBuffer limits vb vsize).1 = .ok a →
      a.offset = vb.cursor ∧
      a.range = Utility.roundToPowerOfTwo 64 vsize
        limits.minUniformBufferOffsetAlignment ∧
      (Vulkan.Renderer.allocFromUniformBuffer limits vb vsize).2.cursor
        = vb.cursor + Utility.roundToPowerOfTwo 64 vsize
            limits.minUniformBufferOffsetAlignment ∧
      (Vulkan.Renderer.allocFromUniformBuffer limits vb vsize).2.capacity
        = vb.capacity) ∧
    vb.cursor ≤ (Vulkan.Renderer.allocFromUniformBuffer limits vb vsize).2.cursor := by
  generalize hrv : Utility.roundToPowerOfTwo 64 vsize
    limits.minUniformBufferOffsetAlignment = rv at hv ⊢
  have heq : Vulkan.Renderer.allocFromUniformBuffer limits vb vsize =
      if limits.maxUniformBufferRange < rv then (.error .invalidArgument, vb)
      else if vb.capacity < vb.cursor + rv then (.error .overflowError, vb)
      else (.ok ⟨vb.cursor, rv⟩, ⟨vb.capacity, vb.cursor + rv⟩) := by
    simp only [Vulkan.Renderer.allocFromUniformBuffer, hrv, Nat.mod_eq_of_lt hv]
  rw [heq]
  split_ifs with h1 h2
  · exact ⟨by simp [h1], fun _ => rfl, by simp, by simp⟩
  · exact ⟨by simp [h2], fun _ => rfl, by simp, by simp⟩
  · refine ⟨by simp [h1, h2], by simp, ?_, by simp⟩
    intro a ha
    simp only at ha
    cases ha
    exact ⟨rfl, rfl, rfl, rfl⟩

theorem d3d12_allocFromUploadBuffer_spec
    (db : D3D12.UploadBuffer) (dsize align : Nat)
    (hd : db.cursor + Utility.roundToPowerOfTwo 32 dsize align < 2 ^ 32) :
    ((∃ e, (D3D12.Renderer.allocFromUploadBuffer db dsize align).1 = .error e) ↔
      db.capacity < db.cursor + Utility.roundToPowerOfTwo 32 dsize align) ∧
    ((∃ e, (D3D12.Renderer.allocFromUploadBuffer db dsize align).1 = .error e) →
      (D3D12.Renderer.allocFromUploadBuffer db dsize align).2 = db) ∧
    (∀ a, (D3D12.Renderer.allocFromUploadBuffer db dsize align).1 = .ok a →
      a.offset = db.cursor ∧
      a.size = Utility.roundToPowerOfTwo 32 dsize align ∧
      (D3D12.Renderer.allocFromUploadBuffer db dsize align).2.cursor
        = db.cursor + Utility.roundToPowerOfTwo 32 dsize align ∧
      (D3D12.Renderer.allocFromUploadBuffer db dsize align).2.capacity
        = db.capacity) ∧
    db.cursor ≤ (D3D12.Renderer.allocFromUploadBuffer db dsize align).2.cursor := by
  generalize hrd : Utility.roundToPowerOfTwo 32 dsize align = rd at hd ⊢
  have heq : D3D12.Renderer.allocFromUploadBuffer db dsize align =
      if db.capacity < db.cursor + rd then (.error .overflowError, db)
      else (.ok ⟨db.cursor, rd⟩, ⟨db.capacity, db.cursor + rd⟩) := by
    simp only [D3D12.Renderer.allocFromUploadBuffer, hrd, Nat.mod_eq_of_lt hd]
  rw [heq]
  split_ifs with h1
  · exact ⟨by simp [h1], fun _ => rfl, by simp, by simp⟩
  · refine ⟨by simp [h1], by simp, ?_, by simp⟩
    intro a ha
    simp only at ha
    cases ha
    exact ⟨rfl, rfl, rfl, rfl⟩

/-- Counterexample for C8: the Vulkan sub-allocator raises an error on a
request whose aligned size exceeds `maxUniformBufferRange` (16384 here)
even though cursor plus aligned size (65536) fits the capacity (1048576) —
so "error iff cursor + aligned size exceeds capacity" fails in the
error-only-if direction. -/
theorem spec_c8_error_iff_counterexample :
    (Vulkan.Renderer.allocFromUniformBuffer ⟨256, 16384⟩ ⟨1048576, 0⟩ 65536).1
      = .error AllocError.invalidArgument ∧
    (⟨1048576, 0⟩ : Vulkan.UniformBuffer).cursor
        + Utility.roundToPowerOfTwo 64 65536
            (⟨256, 16384⟩ : Vulkan.VkPhysicalDeviceLimits).minUniformBufferOffsetAlignment
      ≤ (⟨1048576, 0⟩ : Vulkan.UniformBuffer).capacity := by
  exact ⟨rfl, by decide⟩

/-- C8 (amended): absent unsigned wraparound, a ring-buffer sub-allocation
raises an error iff the cursor plus the aligned size exceeds the capacity
— or, in the Vulkan variant only, additionally when the aligned size
exceeds `maxUniformBufferRange`; on error the buffer is unchanged, and on
success the cursor advances by exactly the aligned size (and never
decreases). -/
theorem spec_c8_alloc_error_and_cursor
    (limits : Vulkan.VkPhysicalDeviceLimits) (vb : Vulkan.UniformBuffer)
    (db : D3D12.UploadBuffer) (vsize dsize align : Nat)
    (hv : vb.cursor + Utility.roundToPowerOfTwo 64 vsize
        limits.minUniformBufferOffsetAlignment < 2 ^ 64)
    (hd : db.cursor + Utility.roundToPowerOfTwo 32 dsize align < 2 ^ 32) :
    ((∃ e, (Vulkan.Renderer.allocFromUniformBuffer limits vb vsize).1 = .error e) ↔
      (limits.maxUniformBufferRange <
          Utility.roundToPowerOfTwo 64 vsize limits.minUniformBufferOffsetAlignment ∨
        vb.capacity < vb.cursor + Utility.roundToPowerOfTwo 64 vsize
          limits.minUniformBufferOffsetAlignment)) ∧
    ((∃ e, (Vulkan.Renderer.allocFromUniformBuffer limits vb vsize).1 = .error e) →
      (Vulkan.Renderer.allocFromUniformBuffer limits vb vsize).2 = vb) ∧
    (∀ a, (Vulkan.Renderer.allocFromUniformBuffer limits vb vsize).1 = .ok a →
      a.offset = vb.cursor ∧
      a.range = Utility.roundToPowerOfTwo 64 vsize
        limits.minUniformBufferOffsetAlignment ∧
      (Vulkan.Renderer.allocFromUniformBuffer limits vb vsize).2.cursor
        = vb.cursor + Utility.roundToPowerOfTwo 64 vsize
            limits.minUniformBufferOffsetAlignment ∧
      (Vulkan.Renderer.allocFromUniformBuffer limits vb vsize).2.capacity
        = vb.capacity) ∧
    vb.cursor ≤ (Vulkan.Renderer.allocFromUniformBuffer limits vb vsize).2.cursor ∧
    ((∃ e, (D3D12.Renderer.allocFromUploadBuffer db dsize align).1 = .error e) ↔
      db.capacity < db.cursor + Utility.roundToPowerOfTwo 32 dsize align) ∧
    ((∃ e, (D3D12.Renderer.allocFromUploadBuffer db dsize align).1 = .error e) →
      (D3D12.Renderer.allocFromUploadBuffer db dsize align).2 = db) ∧
    (∀ a, (D3D12.Renderer.allocFromUploadBuffer db dsize align).1 = .ok a →
      a.offset = db.cursor ∧
      a.size = Utility.roundToPowerOfTwo 32 dsize align ∧
      (D3D12.Renderer.allocFromUploadBuffer db dsize align).2.cursor
        = db.cursor + Utility.roundToPowerOfTwo 32 dsize align ∧
      (D3D12.Renderer.allocFromUploadBuffer db dsize align).2.capacity
        = db.capacity) ∧
    db.cursor ≤ (D3D12.Renderer.allocFromUploadBuffer db dsize align).2.cursor := by
  have hA := vulkan_allocFromUniformBuffer_spec limits vb vsize hv
  have hB := d3d12_allocFromUploadBuffer_spec db dsize align hd
  exact ⟨hA.1, hA.2.1, hA.2.2.1, hA.2.2.2, hB.1, hB.2.1, hB.2.2.1, hB.2.2.2⟩

/-- Witness for C8 (amended), at a 64 KiB uniform buffer with a 192-byte
request (aligned to 256) and a 64 KiB upload buffer at cursor 256 with a
100-byte request. -/
theorem spec_c8_alloc_error_and_cursor_witness :
    (⟨65536, 0⟩ : Vulkan.UniformBuffer).cursor
        ≤ (Vulkan.Renderer.allocFromUniformBuffer ⟨256, 65536⟩ ⟨65536, 0⟩ 192).2.cursor ∧
    (⟨65536, 256⟩ : D3D12.UploadBuffer).cursor
        ≤ (D3D12.Renderer.allocFromUploadBuffer ⟨65536, 256⟩ 100 256).2.cursor := by
  have h := spec_c8_alloc_error_and_cursor ⟨256, 65536⟩ ⟨65536, 0⟩ ⟨65536, 256⟩
    192 100 256 (by decide) (by decide)
  exact ⟨h.2.2.2.1, h.2.2.2.2.2.2.2⟩

theorem runUploadAllocs_spec (align k : Nat) (hk : k ≤ 32) (ha : align = 2 ^ k) :
    ∀ (sizes : List Nat) (b : D3D12.UploadBuffer)
      (regions : List D3D12.UploadBufferRegion) (bf : D3D12.UploadBuffer),
      D3D12.Renderer.runUploadAllocs align b sizes = (regions, bf) →
      b.capacity < 2 ^ 31 →
      (∀ s ∈ sizes, s + align ≤ 2 ^ 31) →
      b.cursor ≤ b.capacity →
      align ∣ b.cursor →
      bf.capacity = b.capacity ∧
      b.cursor ≤ bf.cursor ∧ bf.cursor ≤ b.capacity ∧ align ∣ bf.cursor ∧
      (∀ r ∈ regions, b.cursor ≤ r.offset ∧ r.offset + r.size ≤ bf.cursor ∧
        align ∣ r.size ∧ align ∣ r.offset) ∧
      regions.Pairwise (fun r r' => r.offset + r.size ≤ r'.offset) := by
  intro sizes
  induction sizes with
  | nil =>
    intro b regions bf hrun hcap hsz hc hd
    simp only [D3D12.Renderer.runUploadAllocs, Prod.mk.injEq] at hrun
    obtain ⟨h1, h2⟩ := hrun
    subst h1
    subst h2
    exact ⟨rfl, le_refl _, hc, hd, by simp, by simp⟩
  | cons s rest ih =>
    intro b regions bf hrun hcap hsz hc hd
    obtain ⟨rd, hrd⟩ : ∃ rd, Utility.roundToPowerOfTwo 32 s align = rd := ⟨_, rfl⟩
    have hs : s + align ≤ 2 ^ 31 := hsz s (by simp)
    have hrest : ∀ x ∈ rest, x + align ≤ 2 ^ 31 := fun x hx => hsz x (by simp [hx])
    have halpos : 0 < align := by
      rw [ha]
      exact Nat.pos_pow_of_pos k (by decide)
    have hrd_lt : rd < 2 ^ 31 := by
      have := Utility.roundToPowerOfTwo_le 32 s align
      omega
    have hnw : b.cursor + rd < 2 ^ 32 := by
      have : (2 : Nat) ^ 31 + 2 ^ 31 = 2 ^ 32 := by norm_num
      omega
    have hdvd_rd : align ∣ rd := by
      rw [← hrd, ha]
      exact Utility.dvd_and_neg_mask _ 32 k hk
    have heq : D3D12.Renderer.allocFromUploadBuffer b s align =
        if b.capacity < b.cursor + rd then (.error .overflowError, b)
        else (.ok ⟨b.cursor, rd⟩, ⟨b.capacity, b.cursor + rd⟩) := by
      simp only [D3D12.Renderer.allocFromUploadBuffer, hrd, Nat.mod_eq_of_lt hnw]
    simp only [D3D12.Renderer.runUploadAllocs, heq] at hrun
    by_cases hcond : b.capacity < b.cursor + rd
    · rw [if_pos hcond] at hrun
      exact ih b regions bf hrun hcap hrest hc hd
    · rw [if_neg hcond] at hrun
      simp only [Prod.mk.injEq] at hrun
      obtain ⟨h1, h2⟩ := hrun
      have hcursor' : b.cursor + rd ≤ b.capacity := Nat.le_of_not_lt hcond
      have hih := ih ⟨b.capacity, b.cursor + rd⟩
        (D3D12.Renderer.runUploadAllocs align ⟨b.capacity, b.cursor + rd⟩ rest).1
        (D3D12.Renderer.runUploadAllocs align ⟨b.capacity, b.cursor + rd⟩ rest).2
        rfl hcap hrest hcursor' (Nat.dvd_add hd hdvd_rd)
      subst h1
      subst h2
      have hcur : b.cursor + rd ≤
          (D3D12.Renderer.runUploadAllocs align ⟨b.capacity, b.cursor + rd⟩ rest).2.cursor :=
        hih.2.1
      have hcapf :
          (D3D12.Renderer.runUploadAllocs align ⟨b.capacity, b.cursor + rd⟩ rest).2.capacity
            = b.capacity := hih.1
      have hcurcap :
          (D3D12.Renderer.runUploadAllocs align ⟨b.capacity, b.cursor + rd⟩ rest).2.cursor
            ≤ b.capacity := hih.2.2.1
      refine ⟨hcapf, by omega, hcurcap, hih.2.2.2.1, ?_, ?_⟩
      · intro r hr
        rcases List.mem_cons.mp hr with h | h
        · subst h
          exact ⟨le_refl _, hcur, hdvd_rd, hd⟩
        · have hrtail := hih.2.2.2.2.1 r h
          have h1' : b.cursor + rd ≤ r.offset := hrtail.1
          exact ⟨by omega, hrtail.2.1, hrtail.2.2.1, hrtail.2.2.2⟩
      · refine List.Pairwise.cons ?_ hih.2.2.2.2.2
        intro r' hr'
        have hrtail := hih.2.2.2.2.1 r' hr'
        have h1' : b.cursor + rd ≤ r'.offset := hrtail.1
        simp only []
        omega

namespace Vulkan

/-- A sequence of `allocFromUniformBuffer` calls against the same device
limits (the alignment is the fixed device
`minUniformBufferOffsetAlignment`, matching the call sites at
`vulkan.cpp:468-471`), collecting the successfully returned allocations. -/
def Renderer.runUniformAllocs (limits : VkPhysicalDeviceLimits) :
    UniformBuffer → List Nat → List UniformBufferAllocation × UniformBuffer
  | b, [] => ([], b)
  | b, size :: rest =>
    match Renderer.allocFromUniformBuffer limits b size with
    | (.ok a, b') =>
      ((Renderer.runUniformAllocs limits b' rest).1.cons a,
        (Renderer.runUniformAllocs limits b' rest).2)
    | (.error _, b') => Renderer.runUniformAllocs limits b' rest

end Vulkan

theorem runUniformAllocs_spec (limits : Vulkan.VkPhysicalDeviceLimits) (k : Nat)
    (hk : k ≤ 64) (ha : limits.minUniformBufferOffsetAlignment = 2 ^ k) :
    ∀ (sizes : List Nat) (b : Vulkan.UniformBuffer)
      (regions : List Vulkan.UniformBufferAllocation) (bf : Vulkan.UniformBuffer),
      Vulkan.Renderer.runUniformAllocs limits b sizes = (regions, bf) →
      b.capacity < 2 ^ 63 →
      (∀ s ∈ sizes, s + limits.minUniformBufferOffsetAlignment ≤ 2 ^ 63) →
      b.cursor ≤ b.capacity →
      limits.minUniformBufferOffsetAlignment ∣ b.cursor →
      bf.capacity = b.capacity ∧
      b.cursor ≤ bf.cursor ∧ bf.cursor ≤ b.capacity ∧
      limits.minUniformBufferOffsetAlignment ∣ bf.cursor ∧
      (∀ r ∈ regions, b.cursor ≤ r.offset ∧ r.offset + r.range ≤ bf.cursor ∧
        limits.minUniformBufferOffsetAlignment ∣ r.range ∧
        limits.minUniformBufferOffsetAlignment ∣ r.offset) ∧
      regions.Pairwise (fun r r' => r.offset + r.range ≤ r'.offset) := by
  intro sizes
  induction sizes with
  | nil =>
    intro b regions bf hrun hcap hsz hc hd
    simp only [Vulkan.Renderer.runUniformAllocs, Prod.mk.injEq] at hrun
    obtain ⟨h1, h2⟩ := hrun
    subst h1
    subst h2
    exact ⟨rfl, le_refl _, hc, hd, by simp, by simp⟩
  | cons s rest ih =>
    intro b regions bf hrun hcap hsz hc hd
    obtain ⟨rd, hrd⟩ : ∃ rd, Utility.roundToPowerOfTwo 64 s
        limits.minUniformBufferOffsetAlignment = rd := ⟨_, rfl⟩
    have hs : s + limits.minUniformBufferOffsetAlignment ≤ 2 ^ 63 := hsz s (by simp)
    have hrest : ∀ x ∈ rest, x + limits.minUniformBufferOffsetAlignment ≤ 2 ^ 63 :=
      fun x hx => hsz x (by simp [hx])
    have halpos : 0 < limits.minUniformBufferOffsetAlignment := by
      rw [ha]
      exact Nat.pos_pow_of_pos k (by decide)
    have hrd_lt : rd < 2 ^ 63 := by
      have := Utility.roundToPowerOfTwo_le 64 s limits.minUniformBufferOffsetAlignment
      omega
    have hnw : b.cursor + rd < 2 ^ 64 := by
      have h2 : (2 : Nat) ^ 63 + 2 ^ 63 = 2 ^ 64 := by norm_num
      omega
    have hdvd_rd : limits.minUniformBufferOffsetAlignment ∣ rd := by
      rw [← hrd, ha]
      exact Utility.dvd_and_neg_mask _ 64 k hk
    have heq : Vulkan.Renderer.allocFromUniformBuffer limits b s =
        if limits.maxUniformBufferRange < rd then (.error .invalidArgument, b)
        else if b.capacity < b.cursor + rd then (.error .overflowError, b)
        else (.ok ⟨b.cursor, rd⟩, ⟨b.capacity, b.cursor + rd⟩) := by
      simp only [Vulkan.Renderer.allocFromUniformBuffer, hrd, Nat.mod_eq_of_lt hnw]
    simp only [Vulkan.Renderer.runUniformAllocs, heq] at hrun
    by_cases hrange : limits.maxUniformBufferRange < rd
    · rw [if_pos hrange] at hrun
      exact ih b regions bf hrun hcap hrest hc hd
    · rw [if_neg hrange] at hrun
      by_cases hcond : b.capacity < b.cursor + rd
      · rw [if_pos hcond] at hrun
        exact ih b regions bf hrun hcap hrest hc hd
      · rw [if_neg hcond] at hrun
        simp only [Prod.mk.injEq] at hrun
        obtain ⟨h1, h2⟩ := hrun
        have hcursor' : b.cursor + rd ≤ b.capacity := Nat.le_of_not_lt hcond
        have hih := ih ⟨b.capacity, b.cursor + rd⟩
          (Vulkan.Renderer.runUniformAllocs limits ⟨b.capacity, b.cursor + rd⟩ rest).1
          (Vulkan.Renderer.runUniformAllocs limits ⟨b.capacity, b.cursor + rd⟩ rest).2
          rfl hcap hrest hcursor' (Nat.dvd_add hd hdvd_rd)
        subst h1
        subst h2
        have hcur : b.cursor + rd ≤
            (Vulkan.Renderer.runUniformAllocs limits
              ⟨b.capacity, b.cursor + rd⟩ rest).2.cursor :=
          hih.2.1
        have hcapf :
            (Vulkan.Renderer.runUniformAllocs limits
              ⟨b.capacity, b.cursor + rd⟩ rest).2.capacity = b.capacity := hih.1
        have hcurcap :
            (Vulkan.Renderer.runUniformAllocs limits
              ⟨b.capacity, b.cursor + rd⟩ rest).2.cursor ≤ b.capacity := hih.2.2.1
        refine ⟨hcapf, by omega, hcurcap, hih.2.2.2.1, ?_, ?_⟩
        · intro r hr
          rcases List.mem_cons.mp hr with h | h
          · subst h
            exact ⟨le_refl _, hcur, hdvd_rd, hd⟩
          · have hrtail := hih.2.2.2.2.1 r h
            have h1' : b.cursor + rd ≤ r.offset := hrtail.1
            exact ⟨by omega, hrtail.2.1, hrtail.2.2.1, hrtail.2.2.2⟩
        · refine List.Pairwise.cons ?_ hih.2.2.2.2.2
          intro r' hr'
          have hrtail := hih.2.2.2.2.1 r' hr'
          have h1' : b.cursor + rd ≤ r'.offset := hrtail.1
          simp only []
          omega

/-- C10: over any sequence of requests against a fresh ring buffer
(cursor 0) with a power-of-two alignment — the D3D12 upload buffer with
the call site's explicit alignment (256 at `d3d12.cpp:1213`), and the
Vulkan uniform buffer with the device's fixed
`minUniformBufferOffsetAlignment` — every returned sub-allocation has
alignment-multiple size and offset, starts exactly at the cursor current
at its call, lies within `[0, capacity)`, and is pairwise disjoint from
every other returned sub-allocation.  The side conditions rule out
unsigned wraparound in `cursor + alignedSize` (32-bit for D3D12, 64-bit
for Vulkan). -/
theorem spec_c10_ring_buffer_invariant (align k capacity : Nat) (sizes : List Nat)
    (limits : Vulkan.VkPhysicalDeviceLimits) (k' vcapacity : Nat) (vsizes : List Nat)
    (hk : k ≤ 32) (ha : align = 2 ^ k) (hcap : capacity < 2 ^ 31)
    (hsz : ∀ s ∈ sizes, s + align ≤ 2 ^ 31)
    (hk' : k' ≤ 64) (ha' : limits.minUniformBufferOffsetAlignment = 2 ^ k')
    (hvcap : vcapacity < 2 ^ 63)
    (hvsz : ∀ s ∈ vsizes, s + limits.minUniformBufferOffsetAlignment ≤ 2 ^ 63) :
    (∀ r ∈ (D3D12.Renderer.runUploadAllocs align ⟨capacity, 0⟩ sizes).1,
      align ∣ r.size ∧ align ∣ r.offset ∧ r.offset + r.size ≤ capacity) ∧
    (D3D12.Renderer.runUploadAllocs align ⟨capacity, 0⟩ sizes).1.Pairwise
      (fun r r' => r.offset + r.size ≤ r'.offset ∨ r'.offset + r'.size ≤ r.offset) ∧
    (∀ (b : D3D12.UploadBuffer) (s : Nat) (r : D3D12.UploadBufferRegion)
        (b' : D3D12.UploadBuffer),
      D3D12.Renderer.allocFromUploadBuffer b s align = (.ok r, b') →
      r.offset = b.cursor) ∧
    (∀ r ∈ (Vulkan.Renderer.runUniformAllocs limits ⟨vcapacity, 0⟩ vsizes).1,
      limits.minUniformBufferOffsetAlignment ∣ r.range ∧
      limits.minUniformBufferOffsetAlignment ∣ r.offset ∧
      r.offset + r.range ≤ vcapacity) ∧
    (Vulkan.Renderer.runUniformAllocs limits ⟨vcapacity, 0⟩ vsizes).1.Pairwise
      (fun r r' => r.offset + r.range ≤ r'.offset ∨ r'.offset + r'.range ≤ r.offset) ∧
    (∀ (lim : Vulkan.VkPhysicalDeviceLimits) (b : Vulkan.UniformBuffer) (s : Nat)
        (a : Vulkan.UniformBufferAllocation) (b' : Vulkan.UniformBuffer),
      Vulkan.Renderer.allocFromUniformBuffer lim b s = (.ok a, b') →
      a.offset = b.cursor) := by
  have hspec := runUploadAllocs_spec align k hk ha sizes ⟨capacity, 0⟩
    (D3D12.Renderer.runUploadAllocs align ⟨capacity, 0⟩ sizes).1
    (D3D12.Renderer.runUploadAllocs align ⟨capacity, 0⟩ sizes).2
    rfl hcap hsz (Nat.zero_le _) (Nat.dvd_zero _)
  have hcurcap : (D3D12.Renderer.runUploadAllocs align ⟨capacity, 0⟩ sizes).2.cursor
      ≤ capacity := hspec.2.2.1
  have hvspec := runUniformAllocs_spec limits k' hk' ha' vsizes ⟨vcapacity, 0⟩
    (Vulkan.Renderer.runUniformAllocs limits ⟨vcapacity, 0⟩ vsizes).1
    (Vulkan.Renderer.runUniformAllocs limits ⟨vcapacity, 0⟩ vsizes).2
    rfl hvcap hvsz (Nat.zero_le _) (Nat.dvd_zero _)
  have hvcurcap :
      (Vulkan.Renderer.runUniformAllocs limits ⟨vcapacity, 0⟩ vsizes).2.cursor
        ≤ vcapacity := hvspec.2.2.1
  refine ⟨?_, ?_, ?_, ?_, ?_, ?_⟩
  · intro r hr
    have h := hspec.2.2.2.2.1 r hr
    exact ⟨h.2.2.1, h.2.2.2, le_trans h.2.1 hcurcap⟩
  · exact hspec.2.2.2.2.2.imp Or.inl
  · intro b s r b' halloc
    by_cases hcond : (b.cursor + Utility.roundToPowerOfTwo 32 s align) % 2 ^ 32
        > b.capacity
    · rw [D3D12.Renderer.allocFromUploadBuffer] at halloc
      rw [if_pos hcond] at halloc
      simp at halloc
    · rw [D3D12.Renderer.allocFromUploadBuffer] at halloc
      rw [if_neg hcond] at halloc
      simp only [Prod.mk.injEq] at halloc
      obtain ⟨h1, _⟩ := halloc
      cases h1
      rfl
  · intro r hr
    have h := hvspec.2.2.2.2.1 r hr
    exact ⟨h.2.2.1, h.2.2.2, le_trans h.2.1 hvcurcap⟩
  · exact hvspec.2.2.2.2.2.imp Or.inl
  · intro lim b s a b' halloc
    by_cases h1 : Utility.roundToPowerOfTwo 64 s lim.minUniformBufferOffsetAlignment
        > lim.maxUniformBufferRange
    · rw [Vulkan.Renderer.allocFromUniformBuffer] at halloc
      rw [if_pos h1] at halloc
      simp at halloc
    · rw [Vulkan.Renderer.allocFromUniformBuffer] at halloc
      rw [if_neg h1] at halloc
      by_cases h2 : (b.cursor + Utility.roundToPowerOfTwo 64 s
          lim.minUniformBufferOffsetAlignment) % 2 ^ 64 > b.capacity
      · rw [if_pos h2] at halloc
        simp at halloc
      · rw [if_neg h2] at halloc
        simp only [Prod.mk.injEq] at halloc
        obtain ⟨hh, _⟩ := halloc
        cases hh
        rfl

/-- Witness for C10: the D3D12 upload buffer with alignment 256 (`2^8`)
and capacity 1024, and the Vulkan uniform buffer with device alignment
256 and `maxUniformBufferRange` 65536 and capacity 1024, each receiving
requests of 100 and 300 bytes. -/
theorem spec_c10_ring_buffer_invariant_witness :
    (∀ r ∈ (D3D12.Renderer.runUploadAllocs 256 ⟨1024, 0⟩ [100, 300]).1,
      256 ∣ r.size ∧ 256 ∣ r.offset ∧ r.offset + r.size ≤ 1024) ∧
    (D3D12.Renderer.runUploadAllocs 256 ⟨1024, 0⟩ [100, 300]).1.Pairwise
      (fun r r' => r.offset + r.size ≤ r'.offset ∨ r'.offset + r'.size ≤ r.offset) ∧
    (∀ (b : D3D12.UploadBuffer) (s : Nat) (r : D3D12.UploadBufferRegion)
        (b' : D3D12.UploadBuffer),
      D3D12.Renderer.allocFromUploadBuffer b s 256 = (.ok r, b') →
      r.offset = b.cursor) ∧
    (∀ r ∈ (Vulkan.Renderer.runUniformAllocs ⟨256, 65536⟩ ⟨1024, 0⟩ [100, 300]).1,
      (⟨256, 65536⟩ : Vulkan.VkPhysicalDeviceLimits).minUniformBufferOffsetAlignment
        ∣ r.range ∧
      (⟨256, 65536⟩ : Vulkan.VkPhysicalDeviceLimits).minUniformBufferOffsetAlignment
        ∣ r.offset ∧
      r.offset + r.range ≤ 1024) ∧
    (Vulkan.Renderer.runUniformAllocs ⟨256, 65536⟩ ⟨1024, 0⟩ [100, 300]).1.Pairwise
      (fun r r' => r.offset + r.range ≤ r'.offset ∨ r'.offset + r'.range ≤ r.offset) ∧
    (∀ (lim : Vulkan.VkPhysicalDeviceLimits) (b : Vulkan.UniformBuffer) (s : Nat)
        (a : Vulkan.UniformBufferAllocation) (b' : Vulkan.UniformBuffer),
      Vulkan.Renderer.allocFromUniformBuffer lim b s = (.ok a, b') →
      a.offset = b.cursor) :=
  spec_c10_ring_buffer_invariant 256 8 1024 [100, 300] ⟨256, 65536⟩ 8 1024 [100, 300]
    (by decide) (by decide) (by decide) (by decide)
    (by decide) (by decide) (by decide) (by decide)

namespace Vulkan

/-- The per-index test of the `findMemoryTypeWithFlags` lambda in
`Vulkan::Renderer::chooseMemoryType` (`vulkan.cpp:1987-1997`): the index
must be allowed by `memoryTypeBits`, and the memory type's property flags
must contain all requested flags. -/
def typeMatches (memoryTypes : Nat → Nat) (memoryTypeBits flags index : Nat) : Bool :=
  memoryTypeBits &&& (1 <<< index) != 0 && (memoryTypes index &&& flags == flags)

/-- The scan loop of `findMemoryTypeWithFlags`:
`for(index=0; index < VK_MAX_MEMORY_TYPES; ++index)`, returning the first
matching index, or `uint32_t(-1) = 4294967295` when none matches.  The
loop is modelled with a fuel argument; `findMemoryTypeWithFlags` passes
`32 = VK_MAX_MEMORY_TYPES`, the exact iteration count. -/
def findMemoryTypeLoop (memoryTypes : Nat → Nat) (memoryTypeBits flags : Nat) :
    Nat → Nat → Nat
  | _, 0 => 4294967295
  | index, fuel + 1 =>
    if typeMatches memoryTypes memoryTypeBits flags index then index
    else findMemoryTypeLoop memoryTypes memoryTypeBits flags (index + 1) fuel

def findMemoryTypeWithFlags (memoryTypes : Nat → Nat) (memoryTypeBits flags : Nat) : Nat :=
  findMemoryTypeLoop memoryTypes memoryTypeBits flags 0 32

/-- `Vulkan::Renderer::chooseMemoryType` (`vulkan.cpp:1985-2009`):
`requiredFlags` defaults to 0 (`vulkan.hpp:197`) and is replaced by
`preferredFlags` when 0; scans for a preferred match, falls back to a scan
for the required flags when the first scan failed and the flags differ,
and returns the result — the sentinel `uint32_t(-1)` when both scans
failed. -/
def Renderer.chooseMemoryType (memoryTypes : Nat → Nat)
    (memoryTypeBits preferredFlags requiredFlags : Nat) : Nat :=
  let requiredFlags' :=
    if requiredFlags = 0 then preferredFlags else requiredFlags
  let memoryType := findMemoryTypeWithFlags memoryTypes memoryTypeBits preferredFlags
  if memoryType = 4294967295 ∧ requiredFlags' ≠ preferredFlags then
    findMemoryTypeWithFlags memoryTypes memoryTypeBits requiredFlags'
  else
    memoryType

theorem findMemoryTypeLoop_spec (mt : Nat → Nat) (bits flags : Nat) :
    ∀ fuel index,
      (findMemoryTypeLoop mt bits flags index fuel = 4294967295 ∧
        ∀ j, j < fuel → typeMatches mt bits flags (index + j) = false) ∨
      (∃ j, j < fuel ∧ findMemoryTypeLoop mt bits flags index fuel = index + j ∧
        typeMatches mt bits flags (index + j) = true ∧
        ∀ j', j' < j → typeMatches mt bits flags (index + j') = false) := by
  intro fuel
  induction fuel with
  | zero =>
    intro index
    exact Or.inl ⟨rfl, by omega⟩
  | succ fuel ih =>
    intro index
    by_cases h : typeMatches mt bits flags index = true
    · refine Or.inr ⟨0, by omega, ?_, by simpa using h, by omega⟩
      rw [findMemoryTypeLoop, if_pos h]
      omega
    · have hfalse : typeMatches mt bits flags index = false := by
        cases hb : typeMatches mt bits flags index
        · rfl
        · exact absurd hb h
      rcases ih (index + 1) with ⟨hval, hnone⟩ | ⟨j, hj, hval, hmatch, hmin⟩
      · refine Or.inl ⟨?_, ?_⟩
        · rw [findMemoryTypeLoop, if_neg h]
          exact hval
        · intro j hjf
          cases j with
          | zero => simpa using hfalse
          | succ j =>
            have := hnone j (by omega)
            have harith : index + 1 + j = index + (j + 1) := by omega
            rw [harith] at this
            exact this
      · refine Or.inr ⟨j + 1, by omega, ?_, ?_, ?_⟩
        · rw [findMemoryTypeLoop, if_neg h, hval]
          omega
        · have harith : index + 1 + j = index + (j + 1) := by omega
          rw [harith] at hmatch
          exact hmatch
        · intro j' hj'
          cases j' with
          | zero => simpa using hfalse
          | succ j' =>
            have := hmin j' (by omega)
            have harith : index + 1 + j' = index + (j' + 1) := by omega
            rw [harith] at this
            exact this

theorem findMemoryTypeWithFlags_spec (mt : Nat → Nat) (bits flags : Nat) :
    (findMemoryTypeWithFlags mt bits flags = 4294967295 ∧
      ∀ i, i < 32 → typeMatches mt bits flags i = false) ∨
    (findMemoryTypeWithFlags mt bits flags < 32 ∧
      typeMatches mt bits flags (findMemoryTypeWithFlags mt bits flags) = true) := by
  rcases findMemoryTypeLoop_spec mt bits flags 32 0 with ⟨hval, hnone⟩ |
    ⟨j, hj, hval, hmatch, _⟩
  · exact Or.inl ⟨hval, fun i hi => by simpa using hnone i hi⟩
  · refine Or.inr ⟨?_, ?_⟩
    · rw [findMemoryTypeWithFlags, hval]
      omega
    · rw [findMemoryTypeWithFlags, hval]
      simpa using hmatch

end Vulkan

/-- Counterexample for C5: with no memory type matching either flag set
(all property flags are 0, requested flags 1), `chooseMemoryType` does not
fail fatally — it returns the sentinel `uint32_t(-1) = 4294967295` to its
caller. -/
theorem spec_c5_no_match_counterexample :
    Vulkan.Renderer.chooseMemoryType (fun _ => 0) 1 1 0 = 4294967295 ∧
    (∀ i, i < 32 → Vulkan.typeMatches (fun _ => 0) 1 1 i = false) := by
  exact ⟨by decide, by decide⟩

/-- C5 (amended): `chooseMemoryType` returns an allowed index whose
property flags contain the preferred flags when one exists; otherwise it
falls back to the required flags (which default to the preferred flags
when the argument is 0); and when neither scan finds a match it returns
the sentinel `uint32_t(-1)` (the subsequent `vkAllocateMemory` at the call
site then fails and the caller throws). -/
theorem spec_c5_choose_memory_type (mt : Nat → Nat) (bits pref req : Nat) :
    (∀ i, i < 32 → Vulkan.typeMatches mt bits pref i = true →
      (Vulkan.Renderer.chooseMemoryType mt bits pref req < 32 ∧
        Vulkan.typeMatches mt bits pref
          (Vulkan.Renderer.chooseMemoryType mt bits pref req) = true)) ∧
    ((∀ i, i < 32 → Vulkan.typeMatches mt bits pref i = false) →
      (∀ i, i < 32 →
        Vulkan.typeMatches mt bits (if req = 0 then pref else req) i = false) →
      Vulkan.Renderer.chooseMemoryType mt bits pref req = 4294967295) ∧
    ((∀ i, i < 32 → Vulkan.typeMatches mt bits pref i = false) →
      ∀ i, i < 32 →
        Vulkan.typeMatches mt bits (if req = 0 then pref else req) i = true →
        (Vulkan.Renderer.chooseMemoryType mt bits pref req < 32 ∧
          Vulkan.typeMatches mt bits (if req = 0 then pref else req)
            (Vulkan.Renderer.chooseMemoryType mt bits pref req) = true)) := by
  refine ⟨?_, ?_, ?_⟩
  · intro i hi hmatch
    rcases Vulkan.findMemoryTypeWithFlags_spec mt bits pref with ⟨_, hnone⟩ | ⟨hlt, hm⟩
    · exact absurd hmatch (by simp [hnone i hi])
    · have hne : ¬(Vulkan.findMemoryTypeWithFlags mt bits pref = 4294967295 ∧
          (if req = 0 then pref else req) ≠ pref) := by
        intro hcontra
        omega
      rw [Vulkan.Renderer.chooseMemoryType]
      simp only [if_neg hne]
      exact ⟨hlt, hm⟩
  · intro hprefnone hreqnone
    have hpref : Vulkan.findMemoryTypeWithFlags mt bits pref = 4294967295 := by
      rcases Vulkan.findMemoryTypeWithFlags_spec mt bits pref with ⟨hval, _⟩ | ⟨hlt, hm⟩
      · exact hval
      · exact absurd hm (by simp [hprefnone _ hlt])
    have hreq : Vulkan.findMemoryTypeWithFlags mt bits
        (if req = 0 then pref else req) = 4294967295 := by
      rcases Vulkan.findMemoryTypeWithFlags_spec mt bits
          (if req = 0 then pref else req) with ⟨hval, _⟩ | ⟨hlt, hm⟩
      · exact hval
      · exact absurd hm (by simp [hreqnone _ hlt])
    rw [Vulkan.Renderer.chooseMemoryType]
    by_cases hcond : Vulkan.findMemoryTypeWithFlags mt bits pref = 4294967295 ∧
        (if req = 0 then pref else req) ≠ pref
    · simp only [if_pos hcond]
      exact hreq
    · simp only [if_neg hcond]
      exact hpref
  · intro hprefnone i hi hmatch
    have hpref : Vulkan.findMemoryTypeWithFlags mt bits pref = 4294967295 := by
      rcases Vulkan.findMemoryTypeWithFlags_spec mt bits pref with ⟨hval, _⟩ | ⟨hlt, hm⟩
      · exact hval
      · exact absurd hm (by simp [hprefnone _ hlt])
    by_cases hsame : (if req = 0 then pref else req) = pref
    · rw [hsame] at hmatch
      exact absurd hmatch (by simp [hprefnone i hi])
    · rcases Vulkan.findMemoryTypeWithFlags_spec mt bits
          (if req = 0 then pref else req) with ⟨_, hnone⟩ | ⟨hlt, hm⟩
      · exact absurd hmatch (by simp [hnone i hi])
      · rw [Vulkan.Renderer.chooseMemoryType]
        simp only [if_pos (And.intro hpref hsame)]
        exact ⟨hlt, hm⟩

/-- Witness for C5 (amended): memory type 0 has flags 3 ⊇ 1 and is allowed
by mask 1, so `chooseMemoryType` returns a preferred-matching index. -/
theorem spec_c5_choose_memory_type_witness :
    Vulkan.Renderer.chooseMemoryType (fun i => if i = 0 then 3 else 0) 1 1 0 < 32 ∧
    Vulkan.typeMatches (fun i => if i = 0 then 3 else 0) 1 1
      (Vulkan.Renderer.chooseMemoryType (fun i => if i = 0 then 3 else 0) 1 1 0)
      = true :=
  (spec_c5_choose_memory_type (fun i => if i = 0 then 3 else 0) 1 1 0).1 0
    (by decide) (by decide)

namespace D3D12

/-- `static const UINT NumFrames = 2` (`d3d12.hpp:184`). -/
def NumFrames : Nat := 2

/-- The renderer state that selects per-frame resources: `m_frameIndex`
(`d3d12.cpp`; the Vulkan backend keeps the analogous `m_frameIndex`
written by `vkAcquireNextImageKHR`). -/
structure FrameState where
  frameIndex : Nat
deriving DecidableEq

/-- `D3D12::Renderer::presentFrame` (`d3d12.cpp:1250-1265`), restricted to
its effect on `m_frameIndex`: after `Present`, the new index is whatever
`m_swapChain->GetCurrentBackBufferIndex()` reports — an input from the
driver, not a value computed by the renderer.  (The fence bookkeeping does
not influence the index.)  The Vulkan `presentFrame`
(`vulkan.cpp:1745-1774`) likewise overwrites `m_frameIndex` with the
index returned by `vkAcquireNextImageKHR`. -/
def Renderer.presentFrame (_s : FrameState) (backBufferIndex : Nat) : FrameState :=
  { frameIndex := backBufferIndex }

/-- The slot indices used by consecutive `render()` calls: each call uses
the current `m_frameIndex` to pick its command allocator, back buffer,
framebuffer and constant-buffer views (`d3d12.cpp:531-561`), then
`presentFrame` installs the driver-reported next index. -/
def renderSlots : FrameState → List Nat → List Nat
  | _, [] => []
  | s, d :: rest => s.frameIndex :: renderSlots (Renderer.presentFrame s d) rest

/-- The same render sequence when the driver follows the DXGI flip-model
contract: after each `Present` the current back-buffer index advances by
one modulo the buffer count. -/
def renderSlotsFlip (s : FrameState) : Nat → List Nat
  | 0 => []
  | n + 1 =>
    s.frameIndex ::
      renderSlotsFlip (Renderer.presentFrame s ((s.frameIndex + 1) % NumFrames)) n

end D3D12

/-- Counterexample for C9: the renderer takes the next frame index from
the swapchain rather than computing `frameIndex + 1 mod N`; under a driver
that reports back buffer 0 twice, two consecutive `render()` calls both
use slot 0 — not the cyclic sequence `[0, 1]` the claim demands for
`N = 2`. -/
theorem spec_c9_driver_chosen_counterexample :
    D3D12.renderSlots ⟨0⟩ [0, 0] = [0, 0] ∧
    D3D12.renderSlots ⟨0⟩ [0, 0] ≠ [0, 1] := by
  exact ⟨rfl, by decide⟩

/-- C9 (amended): when the driver follows the flip-model contract (the
back-buffer index advances by one modulo `NumFrames` after each present),
the slot indices visited by consecutive `render()` calls starting from
index `i` are exactly `(i + j) % NumFrames` for `j = 0, 1, 2, ...` — in
particular the cyclic sequence `0, 1, ..., N-1, 0, 1, ...` from index 0,
with no index skipped, repeated, or visited out of order. -/
theorem spec_c9_frame_index_cycles (n i : Nat) (hi : i < D3D12.NumFrames) :
    D3D12.renderSlotsFlip ⟨i⟩ n
      = (List.range n).map (fun j => (i + j) % D3D12.NumFrames) := by
  induction n generalizing i with
  | zero => rfl
  | succ n ih =>
    rw [D3D12.renderSlotsFlip, List.range_succ_eq_map, List.map_cons, List.map_map]
    congr 1
    · show i = (i + 0) % D3D12.NumFrames
      rw [Nat.add_zero]
      exact (Nat.mod_eq_of_lt hi).symm
    · have hlt : (i + 1) % D3D12.NumFrames < D3D12.NumFrames :=
        Nat.mod_lt _ (by decide)
      rw [D3D12.Renderer.presentFrame, ih ((i + 1) % D3D12.NumFrames) hlt]
      apply List.map_congr_left
      intro j _
      show ((i + 1) % D3D12.NumFrames + j) % D3D12.NumFrames
        = (i + Nat.succ j) % D3D12.NumFrames
      rw [Nat.mod_add_mod]
      congr 1
      omega

/-- Witness for C9 (amended): four `render()` calls from index 0 with
`NumFrames = 2` visit slots `[0, 1, 0, 1]`. -/
theorem spec_c9_frame_index_cycles_witness :
    D3D12.renderSlotsFlip ⟨0⟩ 4
      = (List.range 4).map (fun j => (0 + j) % D3D12.NumFrames) :=
  spec_c9_frame_index_cycles 4 0 (by decide)
